import Mathlib

/-!
Verification development for the FIMS indexing / partitioning prototypes
(`fims_indexing.cpp`, second revision with variable season tables) and the
math utility header (`fims_math.hpp`).

The C++ classes are embedded as Lean structures with explicit state passing:
`std::vector` becomes `List`, `double` becomes `ℚ` (every value the prototype
actually stores in a derived-quantity cell is a small integer, exactly
representable, and the math-utility claims settled here depend only on control
flow, never on floating-point rounding), `std::map<size_t, vector<...>>` keyed
by the dense range `0..nsexes-1` becomes a list of lists in key order, and a
`std::vector` subscript that may be out of range (undefined behavior in C++)
becomes an `Option`-returning lookup (`none` marks the undefined case) or a
`getD` with an explicitly noted default.  The process-global `id_g` counter and
the `object_id` field it feeds are used only for console printing and are
omitted; so is the `nseasons_` field, which the variable-season constructor
leaves uninitialized and which no embedded operation reads.
-/

namespace Fims

/-- Embedding of C++ `class model_base` (the TimeGrid): year/age dimensions,
the per-year season-offset table, and the maximum season count used as the
folding stride.  Offsets are stored as `ℚ`; only their list lengths are ever
read by the indexing operations. -/
structure model_base where
  nyears : Nat
  nages : Nat
  season_offsets : List (List ℚ)
  seasons_max : Nat
deriving DecidableEq, Repr

/-- The loop in the variable-season constructor:
`for (i = 0; i < nyears; i++) seasons_max_ = max(seasons_max_, season_offsets_[i].size())`
starting from `seasons_max_ = 0`.  The C++ subscript is unchecked; an access
past the caller-supplied table (undefined behavior) is modelled by the
`getD _ []` default. -/
def computeSeasonsMax (nyears : Nat) (offs : List (List ℚ)) : Nat :=
  (List.range nyears).foldl (fun m i => max m (offs.getD i []).length) 0

/-- Embedding of the variable-season constructor
`model_base(nyears, season_offsets, nages)`. -/
def model_base.mkVariable (nyears : Nat) (offs : List (List ℚ)) (nages : Nat) :
    model_base :=
  { nyears := nyears, nages := nages, season_offsets := offs,
    seasons_max := computeSeasonsMax nyears offs }

/-- The season-offset table built by the fixed-season constructor: `nyears`
rows, each `[(j+1)/nseasons for j in 0..nseasons-1]`. -/
def fixedOffsets (nyears nseasons : Nat) : List (List ℚ) :=
  List.replicate nyears
    ((List.range nseasons).map (fun (j : Nat) => ((j : ℚ) + 1) / (nseasons : ℚ)))

/-- Embedding of the fixed-season constructor
`model_base(nyears, nseasons, nages)`: `seasons_max_ = nseasons` and the
offset table is filled uniformly. -/
def model_base.mkFixed (nyears nseasons nages : Nat) : model_base :=
  { nyears := nyears, nages := nages,
    season_offsets := fixedOffsets nyears nseasons, seasons_max := nseasons }

/-- Embedding of the three-argument `get_index(year, season, age)`:
`year * seasons_max_ * nages_ + season * nages_ + age`. -/
def model_base.get_index3 (m : model_base) (year season age : Nat) : Nat :=
  year * m.seasons_max * m.nages + season * m.nages + age

/-- Embedding of the two-argument `get_index(year, season)`:
`year * seasons_max_ * nages_ + season`. -/
def model_base.get_index2 (m : model_base) (year season : Nat) : Nat :=
  year * m.seasons_max * m.nages + season

/-- Embedding of `get_seasons(year)`, i.e. `season_offsets_[year].size()`.
The C++ subscript performs no range check; reading past the table is
undefined behavior, modelled as `none`. -/
def model_base.get_seasons (m : model_base) (year : Nat) : Option Nat :=
  (m.season_offsets[year]?).map List.length

/-- Embedding of C++ `class area` — a `model_base` with no further data
(constructed through the fixed-season constructor). -/
structure area where
  base : model_base
deriving DecidableEq, Repr

/-- Embedding of C++ `class subpopulation`: its `population_base` part holds
the age-class list (`ages`), and the subpopulation adds the dense
derived-quantity array and the (possibly null) bound area pointer. -/
structure subpopulation where
  base : model_base
  ages : List ℚ
  some_derived_quantities : List ℚ
  area_ : Option area
deriving DecidableEq, Repr

/-- Embedding of the variable-season subpopulation constructor
`subpopulation(nyears, season_offsets, nages)`: the `population_base`
variable-season constructor leaves `ages` default-empty, and
`some_derived_quantities` is resized to `nyears * seasons_max_ * nages`
(value-initialized to 0.0).  The `area_` shared pointer starts null. -/
def subpopulation.mkVariable (nyears : Nat) (offs : List (List ℚ)) (nages : Nat) :
    subpopulation :=
  let b := model_base.mkVariable nyears offs nages
  { base := b, ages := [],
    some_derived_quantities := List.replicate (nyears * b.seasons_max * nages) 0,
    area_ := none }

/-- Embedding of `calculate_some_life_history_1(index)`:
`some_derived_quantities[index] = index` (the value stored is the offset
itself, exactly representable in `double`; a write past the array is
undefined behavior in C++ and a no-op under `List.set`). -/
def subpopulation.calculate_some_life_history_1 (sp : subpopulation)
    (index : Nat) : subpopulation :=
  { sp with some_derived_quantities :=
      sp.some_derived_quantities.set index (index : ℚ) }

/-- The record sequence printed by `subpopulation::finalize()`: for every
year `y < nyears_`, every season `s < get_seasons(y)`, every age
`a < nages_`, the record `(y, s, a, some_derived_quantities[get_index(y,s,a)])`.
When `get_seasons(y)` is undefined (table shorter than `nyears_`, undefined
behavior in C++) the year contributes no records (`getD 0`). -/
def subpopulation.report (sp : subpopulation) : List (Nat × Nat × Nat × ℚ) :=
  (List.range sp.base.nyears).flatMap fun y =>
    (List.range ((sp.base.get_seasons y).getD 0)).flatMap fun s =>
      (List.range sp.base.nages).map fun a =>
        (y, s, a, sp.some_derived_quantities.getD (sp.base.get_index3 y s a) 0)

/-- Embedding of C++ `class population`: the `population_base` age list, the
shared area list, the sex-indexed map of subpopulation lists (dense keys
`0..nsexes_-1`, embedded as a list in key order), and `nsexes_`. -/
structure population where
  base : model_base
  ages : List ℚ
  areas_ : List area
  subpopulation_ : List (List subpopulation)
  nsexes_ : Nat
deriving DecidableEq, Repr

/-- Embedding of the fixed-season population constructor
`population(nyears, nseasons, nages, ages)`.  Before partitioning the
subpopulation map is empty; `nsexes_` (uninitialized in C++) is embedded
as 0. -/
def population.mkFixed (nyears nseasons nages : Nat) (ages : List ℚ) :
    population :=
  { base := model_base.mkFixed nyears nseasons nages, ages := ages,
    areas_ := [], subpopulation_ := [], nsexes_ := 0 }

/-- Embedding of the variable-season population constructor
`population(nyears, season_offsets, nages)` (its `population_base`
constructor leaves `ages` default-empty). -/
def population.mkVariable (nyears : Nat) (offs : List (List ℚ)) (nages : Nat) :
    population :=
  { base := model_base.mkVariable nyears offs nages, ages := [],
    areas_ := [], subpopulation_ := [], nsexes_ := 0 }

/-- Embedding of `initialize_subpopulations(nsexes, areas)`: for every sex
`i < nsexes` and every area position `j < areas.size()`, constructs a
subpopulation through the variable-season constructor from this population's
dimensions and offset table, then sets `sub_pop->area_ = areas_[i]` — note
the C++ subscript is the sex index `i`, not the area index `j` (and is an
unchecked, out-of-range access when `nsexes > areas.size()`, modelled by the
`Option` lookup). -/
def population.initialize_subpopulations (p : population) (nsexes : Nat)
    (areas : List area) : population :=
  { p with
    nsexes_ := nsexes
    areas_ := areas
    subpopulation_ := (List.range nsexes).map fun i =>
      (List.range areas.length).map fun _j =>
        let sub_pop := subpopulation.mkVariable p.base.nyears
          p.base.season_offsets p.base.nages
        { sub_pop with area_ := areas[i]? } }

/-- The sequence of folded indices computed by `evaulate_subpopulations` for
one subpopulation, in the C++ loop order: year-major, then season (bounded by
the population's `get_seasons(y)`), then age, each index produced by the
population's own `get_index(y, s, a)`. -/
def population.evalIndices (p : population) : List Nat :=
  (List.range p.base.nyears).flatMap fun y =>
    (List.range ((p.base.get_seasons y).getD 0)).flatMap fun s =>
      (List.range p.base.nages).map fun a => p.base.get_index3 y s a

/-- Embedding of `evaulate_subpopulations()` (name kept from the source):
for every sex and every subpopulation of that sex, applies
`calculate_some_life_history_1` at each index of `evalIndices`, in loop
order. -/
def population.evaulate_subpopulations (p : population) : population :=
  { p with subpopulation_ := p.subpopulation_.map fun subs =>
      subs.map fun sp =>
        p.evalIndices.foldl subpopulation.calculate_some_life_history_1 sp }

/-- Euler's gamma constant literal `0.577215664901532860606512090` from
`fims::gamma`, embedded as an exact rational (rounding of the decimal
literal to `double` is abstracted; no claim settled here inspects the
value). -/
def eulerGammaConst : ℚ := 577215664901532860606512090 / 10 ^ 27

/-- Numerator coefficients `p[]` of the `(1,2)` rational approximation in
`fims::gamma`, embedded as exact rationals. -/
def gammaP : List ℚ :=
  [-171618513886549492533811 / 10 ^ 23,
    247656508055759199108314 / 10 ^ 22,
   -379804256470945635097577 / 10 ^ 21,
    629331155312818442661052 / 10 ^ 21,
    866966202790413211295064 / 10 ^ 21,
   -314512729688483675254357 / 10 ^ 19,
   -361444134186911729807069 / 10 ^ 19,
    664561438202405440627855 / 10 ^ 19]

/-- Denominator coefficients `q[]` of the `(1,2)` rational approximation in
`fims::gamma`, embedded as exact rationals. -/
def gammaQ : List ℚ :=
  [-308402300119738975254353 / 10 ^ 22,
    315350626979604161529144 / 10 ^ 21,
   -101515636749021914166146 / 10 ^ 20,
   -310777167157231109440444 / 10 ^ 20,
    225381184209801510330112 / 10 ^ 19,
    475584627752788110767815 / 10 ^ 20,
   -134659959864969306392456 / 10 ^ 18,
   -115132259675553483497211 / 10 ^ 18]

/-- The `[0.001, 12)` branch of `fims::gamma`: bring the argument into
`(1,2)` (add 1 if below 1, else subtract `n = floor(x) - 1`), run the
8-step `num`/`den` recurrence over `p[]`/`q[]`, form `num/den + 1`, then
undo the reduction (`result /= (y - 1)` in the below-1 case, or
`result *= y++` repeated `n` times otherwise). -/
def gammaMid (x : ℚ) : ℚ :=
  let arg_lt_one : Bool := x < 1
  let n : Nat := if arg_lt_one then 0 else (⌊x⌋ - 1).toNat
  let y : ℚ := if arg_lt_one then x + 1 else x - n
  let z : ℚ := y - 1
  let nd := (gammaP.zip gammaQ).foldl
    (fun nd pq => ((nd.1 + pq.1) * z, nd.2 * z + pq.2)) (0, 1)
  let result := nd.1 / nd.2 + 1
  if arg_lt_one then result / (y - 1)
  else (List.range n).foldl (fun r i => r * (y + (i : ℚ))) result

/-- The value `DBL_MAX` as an exact rational, `2^1024 - 2^971`.  The C++
`temp * 2.0` on the overflow branch produces `+inf` in `double`; it is
embedded as the exact product (no claim settled here inspects it). -/
def dblMax : ℚ := 2 ^ 1024 - 2 ^ 971

/-- Embedding of `fims::gamma` (`fims_math.hpp`).  The source is a C++
template over the scalar type; the transcendental primitives `exp` and
`lgamma` used on the `[12, 171.624]` branch are parameters of the
embedding, since every claim settled about `gamma` concerns only which
inputs throw.  The thrown `std::invalid_argument` becomes `Except.error`
(the source message also interpolates the offending argument). -/
def gamma (expF lgammaF : ℚ → ℚ) (x : ℚ) : Except String ℚ :=
  if x ≤ 0 then
    Except.error "Invalid input argument. Argument must be positive."
  else if x < 1 / 1000 then
    Except.ok (1 / (x * (1 + eulerGammaConst * x)))
  else if x < 12 then
    Except.ok (gammaMid x)
  else if x > 171624 / 1000 then
    Except.ok (dblMax * 2)
  else
    Except.ok (expF (lgammaF x))

/-- Embedding of `fims::dlnorm` (`fims_math.hpp`).  The transcendental
primitives `exp`, `log`, `pow` and the constant `M_PI` are parameters of
the embedding (the claim settled here concerns only the `x ≤ 0` branch).
The body mirrors the source exactly — including its division by
`2 * sdLog` rather than `2 * sdLog * sdLog`. -/
def dlnorm (expF logF : ℚ → ℚ) (powF : ℚ → ℚ → ℚ) (mpi : ℚ)
    (x meanLog sdLog : ℚ) (ret_log : Bool) : ℚ :=
  if x > 0 then
    let ret := (1 / (x * sdLog * powF (2 * mpi) (1 / 2))) *
      expF ((-1) * ((logF x - meanLog) * (logF x - meanLog)) / (2 * sdLog))
    if !ret_log then ret else logF ret
  else 0

/-! ## Helper lemmas -/

/-- The running-maximum loop of the variable-season constructor computes the
supremum over `Finset.range nyears` of the per-year table-entry lengths. -/
theorem computeSeasonsMax_eq_sup (n : Nat) (offs : List (List ℚ)) :
    computeSeasonsMax n offs =
      (Finset.range n).sup (fun i => (offs.getD i []).length) := by
  induction n with
  | zero => rfl
  | succ k ih =>
      have hfold : computeSeasonsMax (k + 1) offs =
          max (computeSeasonsMax k offs) (offs.getD k []).length := by
        unfold computeSeasonsMax
        rw [List.range_succ, List.foldl_append]
        rfl
      rw [hfold, ih, Finset.range_succ, Finset.sup_insert]
      exact max_comm _ _

/-- Every year counted by the variable-season constructor's loop has its
table-entry length bounded by the computed maximum. -/
theorem length_le_computeSeasonsMax {n y : Nat} (offs : List (List ℚ))
    (hy : y < n) : (offs.getD y []).length ≤ computeSeasonsMax n offs := by
  rw [computeSeasonsMax_eq_sup]
  exact Finset.le_sup (f := fun i => (offs.getD i []).length)
    (Finset.mem_range.mpr hy)

/-- `List.getD` agrees with the checked lookup when in range. -/
theorem getD_eq_get_of_lt {α : Type} {l : List α} {i : Nat} {d : α}
    (h : i < l.length) : l.getD i d = l[i] := by
  simp [List.getD_eq_getElem?_getD, List.getElem?_eq_getElem h]

/-! ## C2 — three-argument folded index formula -/

/-- C2: for every TimeGrid and all `year < yearCount`,
`season < maxSeasonCount`, `age < ageCount`, the folded index is
`year·maxSeasonCount·ageCount + season·ageCount + age`. -/
theorem get_index3_eq_formula (m : model_base) (y s a : Nat)
    (_hy : y < m.nyears) (_hs : s < m.seasons_max) (_ha : a < m.nages) :
    m.get_index3 y s a = y * m.seasons_max * m.nages + s * m.nages + a := rfl

/-- Witness for C2 on the fixed grid `(2, 3, 4)` at `(1, 2, 3)`. -/
theorem get_index3_eq_formula_witness :
    1 < (model_base.mkFixed 2 3 4).nyears ∧
    2 < (model_base.mkFixed 2 3 4).seasons_max ∧
    3 < (model_base.mkFixed 2 3 4).nages ∧
    (model_base.mkFixed 2 3 4).get_index3 1 2 3 = 1 * 3 * 4 + 2 * 4 + 3 :=
  ⟨by decide, by decide, by decide,
    get_index3_eq_formula (model_base.mkFixed 2 3 4) 1 2 3
      (by decide) (by decide) (by decide)⟩

/-! ## C3 — stride decomposition between the two folded indices -/

/-- C3 counterexample: on the fixed grid `(1, 2, 2)` the point
`(y, s, a) = (0, 1, 0)` is valid, yet
`get_index(0,1,0) = 2 ≠ 1 = get_index(0,1) + 0` — the two-argument index
omits the `· nages` factor on the season term, so the claimed decomposition
`index3(y,s,a) = index2(y,s) + a` fails. -/
theorem get_index3_ne_get_index2_add_age :
    0 < (model_base.mkFixed 1 2 2).nyears ∧
    1 < (model_base.mkFixed 1 2 2).seasons_max ∧
    0 < (model_base.mkFixed 1 2 2).nages ∧
    (model_base.mkFixed 1 2 2).get_index3 0 1 0 ≠
      (model_base.mkFixed 1 2 2).get_index2 0 1 + 0 := by
  refine ⟨by decide, by decide, by decide, by decide⟩

/-- C3 amended: the decomposition that actually holds for all valid
`y, s, a` is `index3(y, s, a) + s = index2(y, s) + s·ageCount + a` (the
plain `index3 = index2 + a` form holds exactly when `s·ageCount = s`). -/
theorem get_index3_get_index2_stride (m : model_base) (y s a : Nat)
    (_hy : y < m.nyears) (_hs : s < m.seasons_max) (_ha : a < m.nages) :
    m.get_index3 y s a + s = m.get_index2 y s + s * m.nages + a := by
  unfold model_base.get_index3 model_base.get_index2
  ring

/-- Witness for the amended C3 on the fixed grid `(1, 2, 2)` at `(0, 1, 1)`. -/
theorem get_index3_get_index2_stride_witness :
    0 < (model_base.mkFixed 1 2 2).nyears ∧
    1 < (model_base.mkFixed 1 2 2).seasons_max ∧
    1 < (model_base.mkFixed 1 2 2).nages ∧
    (model_base.mkFixed 1 2 2).get_index3 0 1 1 + 1 =
      (model_base.mkFixed 1 2 2).get_index2 0 1 + 1 * 2 + 1 :=
  ⟨by decide, by decide, by decide,
    get_index3_get_index2_stride (model_base.mkFixed 1 2 2) 0 1 1
      (by decide) (by decide) (by decide)⟩

/-! ## C7 — `get_seasons` and out-of-range years -/

/-- C7 counterexample: the grid built from `nyears = 1` and the two-row
table `[[1], [1, 1]]` has `yearCount = 1`, yet `get_seasons(1)` — a year
`≥ yearCount` — returns `2` normally instead of failing: the C++ subscript
`season_offsets_[year]` performs no range check against `nyears_`. -/
theorem get_seasons_out_of_range_returns :
    (model_base.mkVariable 1 [[1], [1, 1]] 3).nyears = 1 ∧
    (model_base.mkVariable 1 [[1], [1, 1]] 3).get_seasons 1 = some 2 := by
  refine ⟨rfl, by decide⟩

/-- C7 amended: `get_seasons(year)` returns the length of the offset
table's entry at `year` whenever that entry exists — in particular for every
`year < yearCount` when the table covers `yearCount` years — with no range
check against `yearCount`; accessing past the table is undefined behavior
(modelled `none`), not a raised out-of-range error. -/
theorem get_seasons_in_table (m : model_base) (y : Nat)
    (hy : y < m.season_offsets.length) :
    m.get_seasons y = some (m.season_offsets.getD y []).length := by
  unfold model_base.get_seasons
  rw [List.getElem?_eq_getElem hy, getD_eq_get_of_lt hy]
  rfl

/-- Witness for the amended C7 on the grid from `nyears = 2`,
table `[[1], [1, 1]]`. -/
theorem get_seasons_in_table_witness :
    1 < (model_base.mkVariable 2 [[1], [1, 1]] 3).season_offsets.length ∧
    (model_base.mkVariable 2 [[1], [1, 1]] 3).get_seasons 1 =
      some ((model_base.mkVariable 2 [[1], [1, 1]] 3).season_offsets.getD 1 []).length :=
  ⟨by decide, get_seasons_in_table (model_base.mkVariable 2 [[1], [1, 1]] 3) 1
    (by decide)⟩

/-! ## C4 — `seasons_max` is the true maximum per-year season count -/

/-- C4: for every variable-season TimeGrid whose offset table covers its
`yearCount` years, `seasons_max` equals the maximum over
`y ∈ [0, yearCount)` of `get_seasons(y)` (`Finset.sup`, which is `0` on the
empty range `yearCount = 0`).  The grid is a plain immutable value in this
embedding — no later operation rebinds any field — so the equality is
preserved for the object's whole lifetime. -/
theorem seasons_max_eq_max_get_seasons (nyears nages : Nat)
    (offs : List (List ℚ)) (h : nyears ≤ offs.length) :
    (model_base.mkVariable nyears offs nages).seasons_max =
      (Finset.range nyears).sup
        (fun y => ((model_base.mkVariable nyears offs nages).get_seasons y).getD 0) := by
  show computeSeasonsMax nyears offs = _
  rw [computeSeasonsMax_eq_sup]
  refine Finset.sup_congr rfl (fun y hy => ?_)
  have hy' : y < offs.length := lt_of_lt_of_le (Finset.mem_range.mp hy) h
  rw [get_seasons_in_table _ _ hy']
  rfl

/-- Witness for C4 on the jagged table `[[1], [1, 1]]` with
`yearCount = 2`. -/
theorem seasons_max_eq_max_get_seasons_witness :
    2 ≤ ([[1], [1, 1]] : List (List ℚ)).length ∧
    (model_base.mkVariable 2 [[1], [1, 1]] 3).seasons_max =
      (Finset.range 2).sup
        (fun y => ((model_base.mkVariable 2 [[1], [1, 1]] 3).get_seasons y).getD 0) :=
  ⟨by decide, seasons_max_eq_max_get_seasons 2 3 [[1], [1, 1]] (by decide)⟩

/-! ## C5 — `report` never surfaces padding cells -/

/-- C5: every record `(year, season, age, value)` yielded by a
subpopulation's `report` (the record stream of `finalize`) has
`season < get_seasons(year)` — the season loop is bounded by each year's
actual count, so no record reaches the padding range
`[get_seasons(year), seasons_max)`. -/
theorem report_season_lt_get_seasons (sp : subpopulation)
    (r : Nat × Nat × Nat × ℚ) (hr : r ∈ sp.report) :
    ∃ n, sp.base.get_seasons r.1 = some n ∧ r.2.1 < n := by
  simp only [subpopulation.report, List.mem_flatMap, List.mem_map,
    List.mem_range] at hr
  obtain ⟨y, hy, s, hs, a, ha, hrec⟩ := hr
  subst hrec
  cases hgs : sp.base.get_seasons y with
  | none => rw [hgs] at hs; simp at hs
  | some n =>
      rw [hgs] at hs
      exact ⟨n, rfl, by simpa using hs⟩

/-- Witness for C5 on the one-cell subpopulation over the table `[[1]]`. -/
theorem report_season_lt_get_seasons_witness :
    (0, 0, 0, (0 : ℚ)) ∈ (subpopulation.mkVariable 1 [[1]] 1).report ∧
    ∃ n, (subpopulation.mkVariable 1 [[1]] 1).base.get_seasons 0 = some n ∧
      0 < n :=
  ⟨by norm_num [subpopulation.mkVariable, subpopulation.report,
      model_base.mkVariable, model_base.get_seasons, model_base.get_index3,
      computeSeasonsMax, List.range_succ, List.replicate, List.getD],
    report_season_lt_get_seasons (subpopulation.mkVariable 1 [[1]] 1)
      (0, 0, 0, (0 : ℚ))
      (by norm_num [subpopulation.mkVariable, subpopulation.report,
        model_base.mkVariable, model_base.get_seasons, model_base.get_index3,
        computeSeasonsMax, List.range_succ, List.replicate, List.getD])⟩

/-! ## C6 — concrete scenario A -/

/-- C6: on the fixed grid `yearCount = 2`, `seasonCount = 2`,
`ageCount = 2`, partitioned with one sex and one area, evaluation followed
by `report` yields exactly the eight records
`(0,0,0,0) … (1,1,1,7)` in lexicographic `(year, season, age)` order, each
value equal to its cell's folded offset. -/
theorem scenarioA_report :
    (((population.mkFixed 2 2 2 [1, 2]).initialize_subpopulations 1
        [⟨model_base.mkFixed 2 2 2⟩]).evaulate_subpopulations).subpopulation_.map
      (fun l => l.map subpopulation.report) =
    [[[(0, 0, 0, (0 : ℚ)), (0, 0, 1, 1), (0, 1, 0, 2), (0, 1, 1, 3),
       (1, 0, 0, 4), (1, 0, 1, 5), (1, 1, 0, 6), (1, 1, 1, 7)]]] := by
  norm_num [population.mkFixed, population.initialize_subpopulations,
    population.evaulate_subpopulations, population.evalIndices,
    model_base.mkFixed, fixedOffsets, model_base.get_seasons,
    model_base.get_index3, subpopulation.mkVariable, model_base.mkVariable,
    computeSeasonsMax, subpopulation.calculate_some_life_history_1,
    subpopulation.report, List.range_succ, List.replicate, List.getD]

/-! ## C1 — partitioning: counts hold, area binding does not -/

/-- C1: evaluating `initialize_subpopulations(1, [A, B])` with two distinct
areas on a freshly constructed population.  The structural half of the claim
holds — one list per sex, `len(areas)` entries per list, `sexCount × 2`
subpopulations in total — but the binding half fails: the source assigns
`sub_pop->area_ = areas_[i]` with the **sex** index `i`, so the
subpopulation at area position 1 is bound to `areas[0] = A`, not
`areas[1] = B`. -/
theorem initialize_binds_sex_indexed_area :
    (⟨model_base.mkFixed 1 1 1⟩ : area) ≠ (⟨model_base.mkFixed 2 1 1⟩ : area) ∧
    ((population.mkFixed 1 1 1 []).initialize_subpopulations 1
        [⟨model_base.mkFixed 1 1 1⟩, ⟨model_base.mkFixed 2 1 1⟩]).subpopulation_.map
      (fun l => l.map (fun sp => sp.area_)) =
    [[some ⟨model_base.mkFixed 1 1 1⟩, some ⟨model_base.mkFixed 1 1 1⟩]] := by
  constructor
  · simp [model_base.mkFixed]
  · norm_num [population.mkFixed, population.initialize_subpopulations,
      model_base.mkFixed, fixedOffsets, subpopulation.mkVariable,
      model_base.mkVariable, computeSeasonsMax, List.range_succ,
      List.replicate, List.getD]

/-! ## C8 — `gamma` throws exactly on non-positive input -/

/-- C8: for every interpretation of the transcendental primitives and every
input `x`, `fims::gamma` returns an error exactly when `x ≤ 0` (in
particular at `x = 0`), and every positive input takes one of the four
value-returning branches. -/
theorem gamma_error_iff_nonpos (expF lgammaF : ℚ → ℚ) :
    (∀ x : ℚ, (∃ e, gamma expF lgammaF x = Except.error e) ↔ x ≤ 0) ∧
    (∃ e, gamma expF lgammaF 0 = Except.error e) := by
  have key : ∀ x : ℚ, (∃ e, gamma expF lgammaF x = Except.error e) ↔ x ≤ 0 := by
    intro x
    constructor
    · rintro ⟨e, he⟩
      by_contra hx
      push_neg at hx
      unfold gamma at he
      rw [if_neg (not_le.mpr hx)] at he
      split_ifs at he
    · intro hx
      exact ⟨_, by unfold gamma; rw [if_pos hx]⟩
  exact ⟨key, (key 0).mpr le_rfl⟩

/-- Witness for C8: with identity primitives, `gamma(0)` is an error and
`gamma(5)` is not. -/
theorem gamma_error_iff_nonpos_witness :
    (∃ e, gamma id id 0 = Except.error e) ∧
    ¬ ∃ e, gamma id id 5 = Except.error e :=
  ⟨(gamma_error_iff_nonpos id id).2,
    fun h => absurd (((gamma_error_iff_nonpos id id).1 5).mp h) (by norm_num)⟩

/-! ## C10 — `dlnorm` returns 0 on the whole non-positive half-line -/

/-- C10: for every interpretation of the transcendental primitives, every
mean, standard deviation and `returnLog` flag, and every `x ≤ 0`,
`fims::dlnorm` returns exactly 0 — the density expression is guarded by
`x > 0` and is never evaluated on that branch. -/
theorem dlnorm_nonpos_eq_zero (expF logF : ℚ → ℚ) (powF : ℚ → ℚ → ℚ)
    (mpi x meanLog sdLog : ℚ) (ret_log : Bool) (hx : x ≤ 0) :
    dlnorm expF logF powF mpi x meanLog sdLog ret_log = 0 := by
  unfold dlnorm
  rw [if_neg (not_lt.mpr hx)]

/-- Witness for C10 at `x = -1` with identity primitives and the log
branch requested. -/
theorem dlnorm_nonpos_eq_zero_witness :
    ((-1 : ℚ) ≤ 0) ∧ dlnorm id id (fun a _ => a) 3 (-1) 0 1 true = 0 :=
  ⟨by norm_num,
    dlnorm_nonpos_eq_zero id id (fun a _ => a) 3 (-1) 0 1 true (by norm_num)⟩

/-! ## C9 — evaluation never indexes past the derived-quantity array -/

/-- Characterization of the indices produced by the evaluation loop: each is
`get_index(y, s, a)` for some `y < nyears`, `s` below year `y`'s loop bound,
`a < nages`. -/
theorem mem_evalIndices {p : population} {i : Nat} (hi : i ∈ p.evalIndices) :
    ∃ y s a, y < p.base.nyears ∧ s < (p.base.get_seasons y).getD 0 ∧
      a < p.base.nages ∧ i = p.base.get_index3 y s a := by
  simp only [population.evalIndices, List.mem_flatMap, List.mem_map,
    List.mem_range] at hi
  obtain ⟨y, hy, s, hs, a, ha, hia⟩ := hi
  exact ⟨y, s, a, hy, hs, ha, hia.symm⟩

/-- The season loop bound `(get_seasons y).getD 0` equals the length of the
offset table's row `y` (both are 0 past the table). -/
theorem get_seasons_getD_eq (m : model_base) (y : Nat) :
    (m.get_seasons y).getD 0 = (m.season_offsets.getD y []).length := by
  unfold model_base.get_seasons
  rw [List.getD_eq_getElem?_getD]
  cases h : m.season_offsets[y]? <;> simp [h]

/-- Arithmetic core of the bounds argument: a folded index over a season
bound `L ≤ M` stays below the rectangular extent `ny · M · A`. -/
theorem index3_bound {ny M A L y s a : Nat} (hy : y < ny) (hs : s < L)
    (hL : L ≤ M) (ha : a < A) : y * M * A + s * A + a < ny * M * A := by
  have h1 : s * A + a < M * A := by
    calc s * A + a < s * A + A := by omega
      _ = (s + 1) * A := by ring
      _ ≤ M * A := mul_le_mul_right' (by omega) A
  calc y * M * A + s * A + a < y * M * A + M * A := by omega
    _ = (y + 1) * (M * A) := by ring
    _ ≤ ny * (M * A) := mul_le_mul_right' (by omega) (M * A)
    _ = ny * M * A := by ring

/-- Each row of the fixed-season offset table has exactly `nseasons`
entries. -/
theorem fixedOffsets_getD_length {ny ns y : Nat} (hy : y < ny) :
    ((fixedOffsets ny ns).getD y []).length = ns := by
  unfold fixedOffsets
  rw [List.getD_eq_getElem?_getD, List.getElem?_replicate, if_pos hy]
  rw [Option.getD_some, List.length_map, List.length_range]

/-- On a fixed-season table with at least one year, the recomputed maximum
equals `nseasons`. -/
theorem computeSeasonsMax_fixedOffsets {ny ns : Nat} (h : 0 < ny) :
    computeSeasonsMax ny (fixedOffsets ny ns) = ns := by
  rw [computeSeasonsMax_eq_sup]
  rw [Finset.sup_congr rfl
    (fun y hy => fixedOffsets_getD_length (Finset.mem_range.mp hy))]
  exact Finset.sup_const ⟨0, Finset.mem_range.mpr h⟩ ns

/-- Every subpopulation built by the partitioning step allocates its
derived-quantity array at the rectangular extent recomputed from the
population's own dimensions and offset table. -/
theorem mem_initialize_derived_length {p : population} {nsexes : Nat}
    {areas : List area} {sp : subpopulation}
    (hsp : sp ∈ (p.initialize_subpopulations nsexes areas).subpopulation_.flatten) :
    sp.some_derived_quantities.length =
      p.base.nyears * computeSeasonsMax p.base.nyears p.base.season_offsets *
        p.base.nages := by
  simp only [population.initialize_subpopulations, List.mem_flatten,
    List.mem_map] at hsp
  obtain ⟨l, ⟨i, hi, hl⟩, hspl⟩ := hsp
  subst hl
  simp only [List.mem_map] at hspl
  obtain ⟨j, hj, hspj⟩ := hspl
  subst hspj
  simp [subpopulation.mkVariable, model_base.mkVariable]

/-- C9: for a population built by either constructor and partitioned by its
own `initialize_subpopulations`, every index computed by the evaluation loop
is strictly below the length of every partitioned subpopulation's
derived-quantity array — no cell update writes out of bounds. -/
theorem evalIndices_lt_derived_length (p0 : population)
    (hp : (∃ ny ns na ag, p0 = population.mkFixed ny ns na ag) ∨
          (∃ ny offs na, p0 = population.mkVariable ny offs na))
    (nsexes : Nat) (areas : List area) (sp : subpopulation) (i : Nat)
    (hsp : sp ∈ (p0.initialize_subpopulations nsexes areas).subpopulation_.flatten)
    (hi : i ∈ (p0.initialize_subpopulations nsexes areas).evalIndices) :
    i < sp.some_derived_quantities.length := by
  rw [mem_initialize_derived_length hsp]
  have hi0 : i ∈ p0.evalIndices := hi
  obtain ⟨y, s, a, hy, hs, ha, hieq⟩ := mem_evalIndices hi0
  rw [get_seasons_getD_eq] at hs
  subst hieq
  rcases hp with ⟨ny, ns, na, ag, rfl⟩ | ⟨ny, offs, na, rfl⟩
  · simp only [population.mkFixed, model_base.mkFixed,
      model_base.get_index3] at hy hs ha ⊢
    rw [fixedOffsets_getD_length hy] at hs
    have hny : 0 < ny := Nat.lt_of_le_of_lt (Nat.zero_le y) hy
    rw [computeSeasonsMax_fixedOffsets hny]
    exact index3_bound hy hs le_rfl ha
  · simp only [population.mkVariable, model_base.mkVariable,
      model_base.get_index3] at hy hs ha ⊢
    exact index3_bound hy hs (length_le_computeSeasonsMax offs hy) ha

/-- Witness for C9: the one-cell fixed population partitioned into one
subpopulation; index 0 is in bounds of its one-entry array. -/
theorem evalIndices_lt_derived_length_witness :
    0 < ({ subpopulation.mkVariable 1 (fixedOffsets 1 1) 1 with
        area_ := some ⟨model_base.mkFixed 1 1 1⟩ } :
        subpopulation).some_derived_quantities.length :=
  evalIndices_lt_derived_length (population.mkFixed 1 1 1 [])
    (Or.inl ⟨1, 1, 1, [], rfl⟩) 1 [⟨model_base.mkFixed 1 1 1⟩] _ 0
    (by norm_num [population.mkFixed, population.initialize_subpopulations,
      model_base.mkFixed, fixedOffsets, subpopulation.mkVariable,
      model_base.mkVariable, computeSeasonsMax, List.range_succ,
      List.replicate, List.getD])
    (by norm_num [population.mkFixed, population.initialize_subpopulations,
      population.evalIndices, model_base.mkFixed, fixedOffsets,
      model_base.get_seasons, model_base.get_index3, computeSeasonsMax,
      List.range_succ, List.replicate, List.getD])

end Fims
